import Mathlib

/-!
# Verification of the `go-web-app` wiki server

A shallow embedding of the two Go sources of the repository
(`src/unnamed/part_000`, the regex-validated variant, and `src/wiki.go`,
the parse-templates-per-call variant) together with proofs of the
specification's claims about them.

Modelling conventions:

* Go byte slices (`[]byte`) are `List Nat` (one entry per byte value).
* The filesystem is a `FS` record: a partial map from file names to files
  (content plus permission mode), together with per-path fault models for
  reads and writes (`none` = the operation succeeds at the OS level).
  `ReadFile` and `WriteFile` model `ioutil.ReadFile` / `ioutil.WriteFile`:
  a successful write replaces the whole content, creating the file with
  the given mode when absent and keeping the existing mode otherwise.
  `WriteFile`'s fault branch covers only failures at `open` (the store is
  then untouched); the platform call's full failure behavior — it opens
  with `O_TRUNC` and then writes, so a failure mid-write leaves the file
  truncated or partially written — is modelled separately by
  `WriteFileOS`, and the claim about failed saves is settled against it.
* Go `error` values are their message strings; fallible operations return
  `Except String _`.
* An HTTP response is the abstract `Response`: the body written by
  `http.NotFound`, `http.Redirect` (status 302), `http.Error`
  (status 500), or a successful template render (status 200, `html`).
* Template files are a `TemplateEnv`: for each file name, either a parse
  error or the parsed template, itself a function from a `Page` to either
  an execution error or the rendered bytes.
-/

set_option autoImplicit false

/-- Byte sequences, modelling Go `[]byte`. -/
abbrev Bytes := List Nat

/-- Models Go's `[]byte(s)` conversion of a string to its byte sequence
(abstractly, at code-point granularity). -/
def strBytes (s : String) : Bytes := s.data.map Char.toNat

/-- `Page` holds the title and body of a web page
(Go: `type Page struct { Title string; Body []byte }`). -/
structure Page where
  Title : String
  Body : Bytes
  deriving DecidableEq, Repr

/-- One stored file: its raw content and its permission mode. -/
structure File where
  content : Bytes
  mode : Nat
  deriving DecidableEq, Repr

/-- The filesystem state seen by the server: the stored files, and the
fault model for writes and reads. `writeErr n = some e` means any write
to path `n` fails with error message `e` at the `open` stage, before the
file is touched; `readErr` likewise marks read failures other than the
file being absent, such as permission errors. Mid-write failures, which
strike after the platform call has already truncated the file, are not
part of this record; they are modelled by the explicit fault parameter
of `WriteFileOS`. -/
structure FS where
  files : String → Option File
  writeErr : String → Option String
  readErr : String → Option String

/-- Models `ioutil.ReadFile`: a faulted read fails with its error, a
missing file fails with the OS not-found error, otherwise the whole
content is returned. -/
def ReadFile (fs : FS) (name : String) : Except String Bytes :=
  match fs.readErr name with
  | some e => .error e
  | none =>
    match fs.files name with
    | some f => .ok f.content
    | none => .error ("open " ++ name ++ ": no such file or directory")

/-- Models `ioutil.WriteFile` with its failure path restricted to faults
at `open` (permission denied, and so on), which leave the store
untouched; a successful call replaces the content wholesale, the file
being created with permission `mode` when absent and keeping its prior
mode when present. This restriction is deliberate and is what the
program-level theorems below rely on; the call's full failure behavior,
including mid-write truncation, is `WriteFileOS`. -/
def WriteFile (fs : FS) (name : String) (content : Bytes) (mode : Nat) :
    Except String FS :=
  match fs.writeErr name with
  | some e => .error e
  | none =>
    let newFile : File :=
      match fs.files name with
      | some f => { f with content := content }
      | none => ⟨content, mode⟩
    .ok { fs with files := fun n => if n = name then some newFile else fs.files n }

/-- `save` gets a title and a body and creates a text file from that
(Go: `func (p *Page) save() error { return ioutil.WriteFile(p.Title+".txt", p.Body, 0600) }`). -/
def Page.save (p : Page) (fs : FS) : Except String FS :=
  WriteFile fs (p.Title ++ ".txt") p.Body 0o600

/-- `loadPage` searches for a specific file and returns the title and body
of that page if it exists, otherwise it returns an error
(Go: reads `title+".txt"` and propagates any read error unchanged). -/
def loadPage (fs : FS) (title : String) : Except String Page :=
  match ReadFile fs (title ++ ".txt") with
  | .error e => .error e
  | .ok body => .ok ⟨title, body⟩

example :
    loadPage ⟨fun _ => none, fun _ => none, fun _ => none⟩ "a" =
      .error "open a.txt: no such file or directory" := rfl

example :
    (Page.mk "a" [1, 2]).save ⟨fun _ => none, fun _ => none, fun _ => none⟩ =
      .ok ⟨fun n => if n = "a.txt" then some ⟨[1, 2], 384⟩ else none,
           fun _ => none, fun _ => none⟩ := rfl

/-! ## Templates and responses -/

/-- A parsed template: merging it with a `Page` yields the rendered
response bytes or a template-execution error. -/
abbrev Template := Page → Except String Bytes

/-- The template files on disk, as seen by `template.ParseFiles`: for each
file name, a parse error or the parsed template. -/
abbrev TemplateEnv := String → Except String Template

/-- A set of already-parsed templates indexed by name, as held by the
`templates` global of the cached variant. -/
abbrev TemplateCache := String → Option Template

/-- Models `template.ParseFiles("edit.html", "view.html")` as wrapped by
`template.Must`: parsing either file fails with its error (in which case
`Must` panics and the program never starts), otherwise the cache holds
exactly the two templates under their base file names. -/
def parseTemplateFiles (env : TemplateEnv) : Except String TemplateCache :=
  match env "edit.html" with
  | .error e => .error e
  | .ok te =>
    match env "view.html" with
    | .error e => .error e
    | .ok tv =>
      .ok (fun n =>
        if n = "edit.html" then some te
        else if n = "view.html" then some tv
        else none)

/-- Models `templates.ExecuteTemplate(w, name, p)`: executing an undefined
template name is an error, otherwise the named template is executed. -/
def executeTemplate (cache : TemplateCache) (name : String) (p : Page) :
    Except String Bytes :=
  match cache name with
  | none => .error ("html/template: " ++ name ++ " is undefined")
  | some t => t p

/-- An HTTP response, as finally written to the `http.ResponseWriter`:
a 404 from `http.NotFound`, a redirect from `http.Redirect` (the wiki
always passes `http.StatusFound`, 302), an error page from `http.Error`
(the wiki always passes 500), or a successful 200 render. -/
inductive Response where
  | notFound
  | redirect (location : String) (status : Nat)
  | httpError (msg : String) (status : Nat)
  | html (body : Bytes)
  deriving DecidableEq, Repr

/-- `renderTemplate` of `src/unnamed/part_000`: executes one of the cached
templates under the name `pageName + ".html"` and reports an execution
error as a 500 via `http.Error`. -/
def renderTemplate (cache : TemplateCache) (pageName : String) (p : Page) :
    Response :=
  match executeTemplate cache (pageName ++ ".html") p with
  | .error e => .httpError e 500
  | .ok out => .html out

/-- `renderTemplate` of `src/wiki.go`: parses `pageName + ".html"` on every
call via `template.ParseFiles`, reporting a parse error as a 500, then
executes it, reporting an execution error as a 500. -/
def renderTemplateNoCache (env : TemplateEnv) (pageName : String) (p : Page) :
    Response :=
  match env (pageName ++ ".html") with
  | .error e => .httpError e 500
  | .ok t =>
    match t p with
    | .error e => .httpError e 500
    | .ok out => .html out

/-! ## Handlers (the `src/unnamed/part_000` variant, whose handlers
receive the already-validated title) -/

/-- An HTTP request: its URL path and its form values (`r.FormValue`
returns the empty string for an absent field, so the form is a total
function to strings). -/
structure Request where
  path : String
  form : String → String

/-- `viewHandler`: loads the page with the given title; if no page exists
the user is redirected to the edit page, otherwise the `view` template is
rendered for it. -/
def viewHandler (cache : TemplateCache) (fs : FS) (title : String) :
    Response :=
  match loadPage fs title with
  | .error _ => .redirect ("/edit/" ++ title) 302
  | .ok p => renderTemplate cache "view" p

/-- `editHandler`: loads the page with the given title; if the page does
not exist a page with the given title and a blank body is rendered with
the `edit` template. -/
def editHandler (cache : TemplateCache) (fs : FS) (title : String) :
    Response :=
  match loadPage fs title with
  | .error _ => renderTemplate cache "edit" ⟨title, []⟩
  | .ok p => renderTemplate cache "edit" p

/-- `saveHandler`: builds a `Page` from the validated title and the `body`
form field, saves it, answers 500 with the error message on failure and a
302 redirect to the view route on success. It returns the response
together with the resulting filesystem state. -/
def saveHandler (fs : FS) (r : Request) (title : String) :
    Response × FS :=
  let body := r.form "body"
  let p : Page := ⟨title, strBytes body⟩
  match p.save fs with
  | .error e => (.httpError e 500, fs)
  | .ok fs2 => (.redirect ("/view/" ++ title) 302, fs2)

/-! ## Router / validator

`validPath = regexp.MustCompile("^/(edit|save|view)/([\\w]+)$")` and
`makeHandler`. In RE2, `\w` is the ASCII word class `[0-9A-Za-z_]`, and
the anchored pattern matches the whole path, the second capture group
being the trailing run of word characters. -/

/-- One character of RE2's `\w` class: `[0-9A-Za-z_]`. -/
def wordChar (c : Char) : Bool :=
  ('0' ≤ c && c ≤ '9') || ('A' ≤ c && c ≤ 'Z') || ('a' ≤ c && c ≤ 'z') || c = '_'

/-- Strips an expected leading character sequence: `stripPre p cs`
returns the remainder of `cs` after `p` when `p` leads `cs`, else `none`. -/
def stripPre : List Char → List Char → Option (List Char)
  | [], cs => some cs
  | _ :: _, [] => none
  | p :: ps, c :: cs => if c = p then stripPre ps cs else none

/-- Matches one alternative of `validPath` against a path: the path must
be `/<route>/` followed by a nonempty run of word characters, which is
returned as the captured title. -/
def matchRoute (route path : String) : Option String :=
  match stripPre ("/" ++ route ++ "/").data path.data with
  | none => none
  | some rest =>
    if rest.isEmpty then none
    else if rest.all wordChar then some ⟨rest⟩ else none

/-- `validPath.FindStringSubmatch(path)`: the anchored regular expression
`^/(edit|save|view)/([\w]+)$`, returning the matched route (group 1) and
title (group 2), or `none` when the path does not match. -/
def validPathMatch (path : String) : Option (String × String) :=
  match matchRoute "edit" path with
  | some t => some ("edit", t)
  | none =>
    match matchRoute "save" path with
    | some t => some ("save", t)
    | none =>
      match matchRoute "view" path with
      | some t => some ("view", t)
      | none => none

/-- `makeHandler`: matches the request path against `validPath`; on no
match it answers 404 via `http.NotFound` and does nothing else (the
filesystem is returned untouched), otherwise it calls the wrapped handler
with the captured title (`m[2]`). Handlers are taken in the uniform shape
`FS → Request → String → Response × FS`. -/
def makeHandler (fn : FS → Request → String → Response × FS)
    (fs : FS) (r : Request) : Response × FS :=
  match validPathMatch r.path with
  | none => (.notFound, fs)
  | some m => fn fs r m.2

example : validPathMatch "/view/Test_1" = some ("view", "Test_1") := rfl
example : validPathMatch "/view/" = none := rfl
example : validPathMatch "/delete/foo" = none := rfl
example : validPathMatch "/view/bad name" = none := rfl
example : validPathMatch "/save/a/b" = none := rfl
example : validPathMatch "view/x" = none := rfl

/-! ## Lemmas about the router -/

theorem stripPre_eq_some (p : List Char) :
    ∀ cs r : List Char, stripPre p cs = some r ↔ cs = p ++ r := by
  induction p with
  | nil => intro cs r; simp [stripPre]
  | cons a as ih =>
    intro cs r
    cases cs with
    | nil => simp [stripPre]
    | cons c cs' =>
      simp only [stripPre, List.cons_append, List.cons.injEq]
      by_cases hc : c = a
      · simp [hc, ih]
      · simp [hc]

theorem matchRoute_eq_some_data {route path t : String} :
    matchRoute route path = some t ↔
      path.data = ("/" ++ route ++ "/").data ++ t.data ∧ t.data ≠ [] ∧
        t.data.all wordChar = true := by
  unfold matchRoute
  rcases hs : stripPre ("/" ++ route ++ "/").data path.data with _ | rest
  · constructor
    · intro h; cases h
    · rintro ⟨h1, -, -⟩
      have h2 := (stripPre_eq_some _ _ _).2 h1
      rw [hs] at h2
      cases h2
  · have hp : path.data = ("/" ++ route ++ "/").data ++ rest :=
      (stripPre_eq_some _ _ _).1 hs
    constructor
    · intro h
      dsimp only at h
      by_cases he : rest.isEmpty
      · rw [if_pos he] at h; cases h
      · rw [if_neg he] at h
        by_cases ha : rest.all wordChar
        · rw [if_pos ha] at h
          have ht : (⟨rest⟩ : String) = t := by injection h
          subst ht
          refine ⟨hp, ?_, ha⟩
          intro hnil
          rw [show (String.mk rest).data = rest from rfl] at hnil
          subst hnil
          exact he rfl
        · rw [if_neg ha] at h; cases h
    · rintro ⟨h1, h2, h3⟩
      have hrt : rest = t.data := by
        have h4 := hp.symm.trans h1
        exact List.append_cancel_left h4
      subst hrt
      dsimp only
      rw [if_neg, if_pos h3]
      intro he
      exact h2 (List.isEmpty_iff.1 he)

theorem matchRoute_eq_some {route path t : String} :
    matchRoute route path = some t ↔
      path = "/" ++ route ++ "/" ++ t ∧ t ≠ "" ∧
        t.data.all wordChar = true := by
  rw [matchRoute_eq_some_data]
  constructor
  · rintro ⟨h1, h2, h3⟩
    refine ⟨String.ext ?_, ?_, h3⟩
    · rw [h1]; rfl
    · intro he; subst he; exact h2 rfl
  · rintro ⟨h1, h2, h3⟩
    refine ⟨?_, ?_, h3⟩
    · rw [h1]; rfl
    · intro hd
      exact h2 (String.ext (hd.trans rfl))

theorem validPathMatch_eq_some {path route title : String} :
    validPathMatch path = some (route, title) ↔
      (route = "edit" ∨ route = "save" ∨ route = "view") ∧
        path = "/" ++ route ++ "/" ++ title ∧ title ≠ "" ∧
        title.data.all wordChar = true := by
  constructor
  · intro h
    unfold validPathMatch at h
    rcases he : matchRoute "edit" path with _ | te <;> rw [he] at h
    · rcases hs : matchRoute "save" path with _ | ts <;> rw [hs] at h
      · rcases hv : matchRoute "view" path with _ | tv <;> rw [hv] at h
        · cases h
        · obtain ⟨rfl, rfl⟩ : "view" = route ∧ tv = title := by
            injection h with h'; exact ⟨congrArg Prod.fst h', congrArg Prod.snd h'⟩
          obtain ⟨hp, hn, ha⟩ := matchRoute_eq_some.1 hv
          exact ⟨Or.inr (Or.inr rfl), hp, hn, ha⟩
      · obtain ⟨rfl, rfl⟩ : "save" = route ∧ ts = title := by
          injection h with h'; exact ⟨congrArg Prod.fst h', congrArg Prod.snd h'⟩
        obtain ⟨hp, hn, ha⟩ := matchRoute_eq_some.1 hs
        exact ⟨Or.inr (Or.inl rfl), hp, hn, ha⟩
    · obtain ⟨rfl, rfl⟩ : "edit" = route ∧ te = title := by
        injection h with h'; exact ⟨congrArg Prod.fst h', congrArg Prod.snd h'⟩
      obtain ⟨hp, hn, ha⟩ := matchRoute_eq_some.1 he
      exact ⟨Or.inl rfl, hp, hn, ha⟩
  · rintro ⟨hroute, rfl, hn, ha⟩
    rcases hroute with rfl | rfl | rfl
    · have he : matchRoute "edit" ("/" ++ "edit" ++ "/" ++ title) = some title :=
        matchRoute_eq_some.2 ⟨rfl, hn, ha⟩
      simp only [validPathMatch, he]
    · have he : matchRoute "edit" ("/" ++ "save" ++ "/" ++ title) = none := rfl
      have hs : matchRoute "save" ("/" ++ "save" ++ "/" ++ title) = some title :=
        matchRoute_eq_some.2 ⟨rfl, hn, ha⟩
      simp only [validPathMatch, he, hs]
    · have he : matchRoute "edit" ("/" ++ "view" ++ "/" ++ title) = none := rfl
      have hs : matchRoute "save" ("/" ++ "view" ++ "/" ++ title) = none := rfl
      have hv : matchRoute "view" ("/" ++ "view" ++ "/" ++ title) = some title :=
        matchRoute_eq_some.2 ⟨rfl, hn, ha⟩
      simp only [validPathMatch, he, hs, hv]

/-! ## Lemmas about the page store -/

/-- Everything a successful `save` does to the filesystem: the write was
not faulted, the fault models are untouched, the target file now holds
exactly the page body (created with mode `0600` when absent, keeping its
prior mode otherwise), and every other file is untouched. -/
theorem save_ok_spec {p : Page} {fs fs1 : FS} (h : p.save fs = .ok fs1) :
    fs.writeErr (p.Title ++ ".txt") = none ∧
    fs1.writeErr = fs.writeErr ∧ fs1.readErr = fs.readErr ∧
    (∃ m, fs1.files (p.Title ++ ".txt") = some ⟨p.Body, m⟩ ∧
      (fs.files (p.Title ++ ".txt") = none → m = 0o600) ∧
      (∀ f, fs.files (p.Title ++ ".txt") = some f → m = f.mode)) ∧
    (∀ n, n ≠ p.Title ++ ".txt" → fs1.files n = fs.files n) := by
  unfold Page.save WriteFile at h
  rcases hw : fs.writeErr (p.Title ++ ".txt") with _ | e <;> rw [hw] at h
  · dsimp only at h
    injection h with h1
    subst h1
    refine ⟨rfl, rfl, rfl, ?_, fun n hn => by simp [hn]⟩
    rcases hf : fs.files (p.Title ++ ".txt") with _ | f
    · exact ⟨0o600, by simp [hf], fun _ => rfl, fun f hf2 => by cases hf2⟩
    · refine ⟨f.mode, by simp [hf], ?_, ?_⟩
      · intro hh; cases hh
      · intro g hg; injection hg with hg; rw [hg]
  · cases h

/-- A failed `save` can only come from a faulted write, with that fault's
message. -/
theorem save_error_spec {p : Page} {fs : FS} {e : String}
    (h : p.save fs = .error e) :
    fs.writeErr (p.Title ++ ".txt") = some e := by
  unfold Page.save WriteFile at h
  rcases hw : fs.writeErr (p.Title ++ ".txt") with _ | e' <;> rw [hw] at h
  · cases h
  · dsimp only at h; injection h with h1; rw [h1]

/-- A faulted write makes `save` fail with the fault's message. -/
theorem save_eq_error {p : Page} {fs : FS} {e : String}
    (hw : fs.writeErr (p.Title ++ ".txt") = some e) :
    p.save fs = .error e := by
  unfold Page.save WriteFile; rw [hw]

/-- Loading succeeds exactly on an unfaulted read of a present file, and
returns the page with that file's raw content as body. -/
theorem loadPage_ok_spec {fs : FS} {title : String} {f : File}
    (hr : fs.readErr (title ++ ".txt") = none)
    (hf : fs.files (title ++ ".txt") = some f) :
    loadPage fs title = .ok ⟨title, f.content⟩ := by
  unfold loadPage ReadFile; rw [hr, hf]

/-- A faulted read surfaces through `loadPage` unchanged. -/
theorem loadPage_error_of_readErr {fs : FS} {title e : String}
    (hr : fs.readErr (title ++ ".txt") = some e) :
    loadPage fs title = .error e := by
  unfold loadPage ReadFile; rw [hr]

/-- Loading an absent page fails with the OS not-found error. -/
theorem loadPage_error_of_missing {fs : FS} {title : String}
    (hr : fs.readErr (title ++ ".txt") = none)
    (hf : fs.files (title ++ ".txt") = none) :
    loadPage fs title =
      .error ("open " ++ (title ++ ".txt") ++ ": no such file or directory") := by
  unfold loadPage ReadFile; rw [hr, hf]

/-! ## Concrete fixtures used by the witnesses -/

/-- The empty, fault-free filesystem. -/
def fs0 : FS := ⟨fun _ => none, fun _ => none, fun _ => none⟩

/-- `fs0` after a successful `save` of `Page{Title: "T", Body: [1]}`. -/
def fsB : FS :=
  { fs0 with files := fun n => if n = "T.txt" then some ⟨[1], 0o600⟩ else none }

/-- `fsB` after a successful `save` of `Page{Title: "T", Body: [2]}`. -/
def fsB2 : FS :=
  { fsB with files := fun n => if n = "T.txt" then some ⟨[2], 0o600⟩ else fsB.files n }

/-- A filesystem on which every write fails with `disk full`. -/
def fsWfail : FS := ⟨fun _ => none, fun _ => some "disk full", fun _ => none⟩

/-- A fault-free filesystem holding the page `E` with an empty body. -/
def fsE : FS :=
  { fs0 with files := fun n => if n = "E.txt" then some ⟨[], 0o600⟩ else none }

/-- A filesystem where reading `T.txt` fails with a permission error. -/
def fsPerm : FS :=
  ⟨fun _ => none, fun _ => none,
   fun n => if n = "T.txt" then some "open T.txt: permission denied" else none⟩

/-- A template whose rendering is the page body itself; always succeeds. -/
def tmplConst : Template := fun p => .ok p.Body

/-- A template environment where every file parses to `tmplConst`. -/
def envOK : TemplateEnv := fun _ => .ok tmplConst

/-- The cache `template.Must(template.ParseFiles(..))` builds over `envOK`. -/
def cacheOK : TemplateCache := fun n =>
  if n = "edit.html" then some tmplConst
  else if n = "view.html" then some tmplConst
  else none

example : parseTemplateFiles envOK = .ok cacheOK := rfl
example : (Page.mk "T" [1]).save fs0 = .ok fsB := rfl
example : (Page.mk "T" [2]).save fsB = .ok fsB2 := rfl

/-! ## The claims -/

/-- C1: for every valid title `T`, body `B` and prior store state,
saving `Page{Title: T, Body: B}` and then loading `T` returns a page with
exactly that title and body; and saving the same title again with a
different body leaves only the second body readable (last-write-wins
overwrite). Stated under the success of the involved I/O: the saves
succeed and reading `T.txt` back is not faulted. -/
theorem save_load_round_trip (fs fs1 : FS) (T : String) (B B2 : Bytes)
    (hsave : (Page.mk T B).save fs = .ok fs1)
    (hread : fs1.readErr (T ++ ".txt") = none) :
    loadPage fs1 T = .ok ⟨T, B⟩ ∧
    (∀ fs2 : FS, (Page.mk T B2).save fs1 = .ok fs2 →
      loadPage fs2 T = .ok ⟨T, B2⟩) := by
  obtain ⟨-, -, -, ⟨m, hf, -, -⟩, -⟩ := save_ok_spec hsave
  refine ⟨loadPage_ok_spec hread hf, fun fs2 hs2 => ?_⟩
  obtain ⟨-, -, hre, ⟨m2, hf2, -, -⟩, -⟩ := save_ok_spec hs2
  exact loadPage_ok_spec (by rw [hre]; exact hread) hf2

theorem save_load_round_trip_witness :
    loadPage fsB "T" = .ok ⟨"T", [1]⟩ ∧ loadPage fsB2 "T" = .ok ⟨"T", [2]⟩ := by
  have h := save_load_round_trip fs0 fsB "T" [1] [2] rfl rfl
  exact ⟨h.1, h.2 fsB2 rfl⟩

/-- C2: a request path is dispatched to the wrapped handler if and only if
it matches `^/(edit|save|view)/([\w]+)$`, in which case the title handed
to the handler is exactly the word-character segment after the route; any
other path gets `http.NotFound` and the store is untouched. -/
theorem makeHandler_dispatch_iff (fn : FS → Request → String → Response × FS)
    (fs : FS) (r : Request) :
    (∀ route title, validPathMatch r.path = some (route, title) ↔
      ((route = "edit" ∨ route = "save" ∨ route = "view") ∧
        r.path = "/" ++ route ++ "/" ++ title ∧ title ≠ "" ∧
        title.data.all wordChar = true)) ∧
    (validPathMatch r.path = none → makeHandler fn fs r = (.notFound, fs)) ∧
    (∀ route title, validPathMatch r.path = some (route, title) →
      makeHandler fn fs r = fn fs r title) := by
  refine ⟨fun route title => validPathMatch_eq_some, ?_, ?_⟩
  · intro h; unfold makeHandler; rw [h]
  · intro route title h; unfold makeHandler; rw [h]

theorem makeHandler_dispatch_iff_witness :
    makeHandler (fun fs _ t => (.redirect ("/x/" ++ t) 302, fs)) fs0
        ⟨"/delete/foo", fun _ => ""⟩ = (.notFound, fs0) ∧
    makeHandler (fun fs _ t => (.redirect ("/x/" ++ t) 302, fs)) fs0
        ⟨"/view/", fun _ => ""⟩ = (.notFound, fs0) ∧
    makeHandler (fun fs _ t => (.redirect ("/x/" ++ t) 302, fs)) fs0
        ⟨"/view/Home", fun _ => ""⟩ = (.redirect "/x/Home" 302, fs0) := by
  refine ⟨(makeHandler_dispatch_iff (fun fs _ t => (.redirect ("/x/" ++ t) 302, fs))
            fs0 ⟨"/delete/foo", fun _ => ""⟩).2.1 rfl,
          (makeHandler_dispatch_iff (fun fs _ t => (.redirect ("/x/" ++ t) 302, fs))
            fs0 ⟨"/view/", fun _ => ""⟩).2.1 rfl,
          ((makeHandler_dispatch_iff (fun fs _ t => (.redirect ("/x/" ++ t) 302, fs))
            fs0 ⟨"/view/Home", fun _ => ""⟩).2.2 "view" "Home" rfl).trans rfl⟩

/-- C3: the save handler builds the page from the `body` form field and
saves it; a failed save answers 500 carrying the error message and
issues no redirect (the store stays as it was), a successful save
answers a 302 redirect to `/view/<title>`. -/
theorem saveHandler_spec (fs : FS) (r : Request) (title : String) :
    (∀ e, fs.writeErr (title ++ ".txt") = some e →
      saveHandler fs r title = (.httpError e 500, fs)) ∧
    (fs.writeErr (title ++ ".txt") = none →
      ∃ fs2, (Page.mk title (strBytes (r.form "body"))).save fs = .ok fs2 ∧
        saveHandler fs r title = (.redirect ("/view/" ++ title) 302, fs2)) := by
  constructor
  · intro e hw
    have hsv : (Page.mk title (strBytes (r.form "body"))).save fs = .error e :=
      save_eq_error hw
    simp only [saveHandler, hsv]
  · intro hw
    rcases hsv : (Page.mk title (strBytes (r.form "body"))).save fs with e | fs2
    · have h2 := save_error_spec hsv
      rw [hw] at h2; cases h2
    · exact ⟨fs2, rfl, by simp only [saveHandler, hsv]⟩

theorem saveHandler_spec_witness :
    saveHandler fsWfail ⟨"/save/T", fun k => if k = "body" then "hi" else ""⟩ "T" =
      (.httpError "disk full" 500, fsWfail) :=
  (saveHandler_spec fsWfail ⟨"/save/T", fun k => if k = "body" then "hi" else ""⟩
    "T").1 "disk full" rfl

/-- C4: the view handler redirects to `/edit/<T>` (302) when the page is
absent, rendering nothing; when the page is present (and the read is not
faulted) it renders the `view` template with that page. -/
theorem viewHandler_spec (cache : TemplateCache) (fs : FS) (T : String) :
    (fs.files (T ++ ".txt") = none →
      viewHandler cache fs T = .redirect ("/edit/" ++ T) 302) ∧
    (∀ f, fs.readErr (T ++ ".txt") = none → fs.files (T ++ ".txt") = some f →
      viewHandler cache fs T = renderTemplate cache "view" ⟨T, f.content⟩) := by
  constructor
  · intro hf
    rcases hr : fs.readErr (T ++ ".txt") with _ | e
    · simp only [viewHandler, loadPage_error_of_missing hr hf]
    · simp only [viewHandler, loadPage_error_of_readErr hr]
  · intro f hr hf
    simp only [viewHandler, loadPage_ok_spec hr hf]

theorem viewHandler_spec_witness :
    viewHandler cacheOK fs0 "Home" = .redirect "/edit/Home" 302 :=
  (viewHandler_spec cacheOK fs0 "Home").1 rfl

/-- C5: for an absent page the edit handler treats the load failure as
non-fatal: it renders the `edit` template with `Page{Title: T, Body: empty}`,
and when that template executes successfully the response is the 200
render, never an error response. -/
theorem editHandler_missing (cache : TemplateCache) (fs : FS) (T : String)
    (habs : fs.files (T ++ ".txt") = none) :
    editHandler cache fs T = renderTemplate cache "edit" ⟨T, []⟩ ∧
    (∀ t bs, cache "edit.html" = some t → t ⟨T, []⟩ = .ok bs →
      editHandler cache fs T = .html bs) := by
  have h1 : editHandler cache fs T = renderTemplate cache "edit" ⟨T, []⟩ := by
    rcases hr : fs.readErr (T ++ ".txt") with _ | e
    · simp only [editHandler, loadPage_error_of_missing hr habs]
    · simp only [editHandler, loadPage_error_of_readErr hr]
  refine ⟨h1, fun t bs hc he => ?_⟩
  rw [h1]
  simp only [renderTemplate, executeTemplate,
    show ("edit" ++ ".html" : String) = "edit.html" from rfl, hc, he]

theorem editHandler_missing_witness :
    editHandler cacheOK fs0 "Home" = .html [] :=
  (editHandler_missing cacheOK fs0 "Home" rfl).2 tmplConst [] rfl rfl

/-- C6: a successful `save` writes exactly the page body to the file
named `<Title>.txt`, creating it with owner-only read/write mode `0600`
when it was absent, and touches no other file. -/
theorem save_writes_file (p : Page) (fs fs2 : FS) (hs : p.save fs = .ok fs2) :
    (∃ f, fs2.files (p.Title ++ ".txt") = some f ∧ f.content = p.Body ∧
      (fs.files (p.Title ++ ".txt") = none → f.mode = 0o600)) ∧
    (∀ n, n ≠ p.Title ++ ".txt" → fs2.files n = fs.files n) := by
  obtain ⟨-, -, -, ⟨m, hf, hm, -⟩, hother⟩ := save_ok_spec hs
  exact ⟨⟨⟨p.Body, m⟩, hf, rfl, fun h => hm h⟩, hother⟩

theorem save_writes_file_witness :
    fsB.files ("T" ++ ".txt") = some ⟨[1], 0o600⟩ := by
  obtain ⟨⟨f, hf, hc, hm⟩, -⟩ := save_writes_file ⟨"T", [1]⟩ fs0 fsB rfl
  have hm' := hm rfl
  cases f
  cases hc
  cases hm'
  exact hf

/-- C7: any failure of the underlying read (missing file, permission
fault, ...) surfaces through `loadPage` as the one error case with no
`Page` value, and the handlers cannot distinguish the causes: any two
failing reads yield identical view and edit responses. -/
theorem loadPage_failure_generic (title : String) :
    (∀ (fs : FS) (e : String), ReadFile fs (title ++ ".txt") = .error e →
      loadPage fs title = .error e ∧ ∀ p : Page, loadPage fs title ≠ .ok p) ∧
    (∀ (cache : TemplateCache) (fs1 fs2 : FS) (e1 e2 : String),
      ReadFile fs1 (title ++ ".txt") = .error e1 →
      ReadFile fs2 (title ++ ".txt") = .error e2 →
      viewHandler cache fs1 title = viewHandler cache fs2 title ∧
      editHandler cache fs1 title = editHandler cache fs2 title) := by
  have key : ∀ (fs : FS) (e : String), ReadFile fs (title ++ ".txt") = .error e →
      loadPage fs title = .error e := by
    intro fs e h; unfold loadPage; rw [h]
  constructor
  · intro fs e h
    refine ⟨key fs e h, fun p hp => ?_⟩
    rw [key fs e h] at hp; cases hp
  · intro cache fs1 fs2 e1 e2 h1 h2
    constructor
    · simp only [viewHandler, key fs1 e1 h1, key fs2 e2 h2]
    · simp only [editHandler, key fs1 e1 h1, key fs2 e2 h2]

theorem loadPage_failure_generic_witness :
    loadPage fsPerm "T" = .error "open T.txt: permission denied" ∧
    viewHandler cacheOK fsPerm "T" = viewHandler cacheOK fs0 "T" := by
  have h := loadPage_failure_generic "T"
  exact ⟨(h.1 fsPerm "open T.txt: permission denied" rfl).1,
         (h.2 cacheOK fsPerm fs0 "open T.txt: permission denied"
           ("open " ++ ("T" ++ ".txt") ++ ": no such file or directory") rfl rfl).1⟩

/-- The full failure behavior of `ioutil.WriteFile`: the call opens the
file with `O_WRONLY|O_CREATE|O_TRUNC` and then writes the content. The
`fault` parameter is the OS outcome of this one call: `none` — the call
succeeds; `some (none, e)` — the `open` itself fails with `e`, leaving
the store untouched; `some (some k, e)` — the `open` succeeds, which
already truncates the file (creating it with `mode` when absent), and
the write then fails with `e` after only the first `k` bytes of the new
content have landed. The result pairs the returned `error` with the
store the call leaves behind. -/
def WriteFileOS (files : String → Option File) (name : String)
    (content : Bytes) (mode : Nat) (fault : Option (Option Nat × String)) :
    Except String Unit × (String → Option File) :=
  let m : Nat :=
    match files name with
    | some f => f.mode
    | none => mode
  match fault with
  | some (none, e) => (.error e, files)
  | some (some k, e) =>
    (.error e, fun n => if n = name then some ⟨content.take k, m⟩ else files n)
  | none =>
    (.ok (), fun n => if n = name then some ⟨content, m⟩ else files n)

/-- `Page.save` over the full-failure model of the platform call. -/
def Page.saveOS (p : Page) (files : String → Option File)
    (fault : Option (Option Nat × String)) :
    Except String Unit × (String → Option File) :=
  WriteFileOS files (p.Title ++ ".txt") p.Body 0o600 fault

/-- The Go `saveHandler`, verbatim, over the full-failure model of the
platform write: build the page from the `body` form field, save it, and
answer 500 with the error message (no redirect) on failure, a 302 to the
view route on success. -/
def saveHandlerOS (files : String → Option File) (r : Request)
    (title : String) (fault : Option (Option Nat × String)) :
    Response × (String → Option File) :=
  let body := r.form "body"
  let p : Page := ⟨title, strBytes body⟩
  match p.saveOS files fault with
  | (.error e, files2) => (.httpError e 500, files2)
  | (.ok _, files2) => (.redirect ("/view/" ++ title) 302, files2)

/-- A store whose only file is `T.txt`, holding the bytes `[1, 2, 3]`. -/
def filesPrior : String → Option File :=
  fun n => if n = "T.txt" then some ⟨[1, 2, 3], 0o600⟩ else none

/-- A save request whose `body` form field is `"hi"`. -/
def reqHi : Request := ⟨"/save/T", fun k => if k = "body" then "hi" else ""⟩

/-- C8, counterexample: a save that fails mid-write (here after 1 byte,
out of disk space) does NOT leave the previously stored content of
`T.txt` intact — the client sees only a 500 with the error message, yet
the prior bytes `[1, 2, 3]` have been replaced by the truncated 1-byte
prefix of the new body, because the platform call truncates before
writing. -/
theorem saveHandler_failure_intact_counterexample :
    filesPrior ("T" ++ ".txt") = some ⟨[1, 2, 3], 0o600⟩ ∧
    (saveHandlerOS filesPrior reqHi "T"
        (some (some 1, "write T.txt: no space left on device"))).1 =
      .httpError "write T.txt: no space left on device" 500 ∧
    (saveHandlerOS filesPrior reqHi "T"
        (some (some 1, "write T.txt: no space left on device"))).2 ("T" ++ ".txt") =
      some ⟨[104], 0o600⟩ ∧
    (saveHandlerOS filesPrior reqHi "T"
        (some (some 1, "write T.txt: no space left on device"))).2 ("T" ++ ".txt") ≠
      filesPrior ("T" ++ ".txt") := by
  refine ⟨rfl, rfl, rfl, ?_⟩
  decide

/-- C8, amended: when a save fails the client sees only a 500 carrying
the error message and no redirect is issued; the previously stored file
content for that title is left intact exactly when the failure strikes
at `open`, before the platform call truncates the file — a failure
during the write itself leaves `<title>.txt` holding only the truncated
`k`-byte prefix of the new body (created with mode `0600` when it was
absent, keeping its prior mode otherwise), so the prior content is
destroyed. -/
theorem saveHandler_failure_os (files : String → Option File) (r : Request)
    (title e : String) :
    saveHandlerOS files r title (some (none, e)) = (.httpError e 500, files) ∧
    (∀ k : Nat,
      (saveHandlerOS files r title (some (some k, e))).1 = .httpError e 500 ∧
      (saveHandlerOS files r title (some (some k, e))).2 (title ++ ".txt") =
        some ⟨(strBytes (r.form "body")).take k,
          match files (title ++ ".txt") with
          | some f => f.mode
          | none => 0o600⟩) := by
  refine ⟨rfl, fun k => ⟨rfl, ?_⟩⟩
  simp [saveHandlerOS, Page.saveOS, WriteFileOS]

/-- C10: saving an empty body makes the page present, not missing: after
a successful `save` of `Page{Title: T, Body: empty}`, loading `T` (with an
unfaulted read) succeeds with the empty body, and the view handler
renders the `view` template instead of redirecting to edit. -/
theorem save_empty_body_present (cache : TemplateCache) (fs fs2 : FS) (T : String)
    (hs : (Page.mk T []).save fs = .ok fs2)
    (hr : fs2.readErr (T ++ ".txt") = none) :
    loadPage fs2 T = .ok ⟨T, []⟩ ∧
    viewHandler cache fs2 T = renderTemplate cache "view" ⟨T, []⟩ := by
  obtain ⟨-, -, -, ⟨m, hf, -, -⟩, -⟩ := save_ok_spec hs
  have hl := loadPage_ok_spec hr hf
  exact ⟨hl, by simp only [viewHandler, hl]⟩

theorem save_empty_body_present_witness :
    loadPage fsE "E" = .ok ⟨"E", []⟩ ∧
    viewHandler cacheOK fsE "E" = renderTemplate cacheOK "view" ⟨"E", []⟩ :=
  save_empty_body_present cacheOK fs0 fsE "E" rfl rfl

/-- C9: given the same template files, and given that startup parsing
succeeded (otherwise `template.Must` aborts the cached program), the
pre-parsed cached renderer of `src/unnamed/part_000` and the
parse-per-call renderer of `src/wiki.go` produce the same response for
the `view` and `edit` templates; and on template-execution failure both
answer 500 carrying the execution error message. -/
theorem renderTemplate_cache_equiv (env : TemplateEnv) (cache : TemplateCache)
    (name : String) (p : Page)
    (hc : parseTemplateFiles env = .ok cache)
    (hname : name = "view" ∨ name = "edit") :
    renderTemplate cache name p = renderTemplateNoCache env name p ∧
    (∀ t e, env (name ++ ".html") = .ok t → t p = .error e →
      renderTemplate cache name p = .httpError e 500 ∧
      renderTemplateNoCache env name p = .httpError e 500) := by
  unfold parseTemplateFiles at hc
  rcases he : env "edit.html" with ee | te <;> rw [he] at hc
  · cases hc
  rcases hv : env "view.html" with ev | tv <;> rw [hv] at hc
  · cases hc
  dsimp only at hc
  injection hc with hc1
  subst hc1
  have hen : ("edit" ++ ".html" : String) = "edit.html" := rfl
  have hvn : ("view" ++ ".html" : String) = "view.html" := rfl
  rcases hname with rfl | rfl
  · have hcache :
        executeTemplate
          (fun n => if n = "edit.html" then some te
            else if n = "view.html" then some tv else none)
          "view.html" p = tv p := by
      simp [executeTemplate]
    constructor
    · rcases htv : tv p with e2 | out <;>
        simp only [renderTemplate, renderTemplateNoCache, hcache, hvn, hv, htv]
    · intro t e het hexec
      rw [hvn, hv] at het
      injection het with ht
      subst ht
      constructor
      · simp only [renderTemplate, hvn, hcache, hexec]
      · simp only [renderTemplateNoCache, hvn, hv, hexec]
  · have hcache :
        executeTemplate
          (fun n => if n = "edit.html" then some te
            else if n = "view.html" then some tv else none)
          "edit.html" p = te p := by
      simp [executeTemplate]
    constructor
    · rcases hte : te p with e2 | out <;>
        simp only [renderTemplate, renderTemplateNoCache, hcache, hen, he, hte]
    · intro t e het hexec
      rw [hen, he] at het
      injection het with ht
      subst ht
      constructor
      · simp only [renderTemplate, hen, hcache, hexec]
      · simp only [renderTemplateNoCache, hen, he, hexec]

theorem renderTemplate_cache_equiv_witness :
    renderTemplate cacheOK "view" ⟨"T", [1]⟩ =
      renderTemplateNoCache envOK "view" ⟨"T", [1]⟩ :=
  (renderTemplate_cache_equiv envOK cacheOK "view" ⟨"T", [1]⟩ rfl (Or.inl rfl)).1
